import Mathlib

/-!
Verification of the AOFlagger flagging-pipeline facade and default-strategy
builder, as a shallow embedding of the sources under review:
`src/interface/aoflagger.h`, `src/interface/aoflagger.cpp`,
`src/strategy/control/defaultstrategy.cpp`,
`src/strategy/actions/statisticalflagaction.cpp`.
Code referenced by those files but not under review (action headers, the
statistical flagger and SIR operator implementations) is modelled from the
specification; each such definition carries a doc comment saying so.
-/

namespace aoflagger

/-! The public `StrategyFlags` constants, as defined by the facade
(`aoflagger.cpp` lines 24-34).  The header `aoflagger.h` (lines 44-116)
declares exactly these eleven constants. -/

namespace StrategyFlags

def NONE : ℕ := 0x00

def LOW_FREQUENCY : ℕ := 0x01

def HIGH_FREQUENCY : ℕ := 0x02

def TRANSIENTS : ℕ := 0x04

def ROBUST : ℕ := 0x08

def FAST : ℕ := 0x10

def OFF_AXIS_SOURCES : ℕ := 0x20

def UNSENSITIVE : ℕ := 0x40

def SENSITIVE : ℕ := 0x80

def GUI_FRIENDLY : ℕ := 0x100

def CLEAR_FLAGS : ℕ := 0x200

/-- The names of the `StrategyFlags` constants that the public facade declares
(`aoflagger.h` lines 44-116, defined in `aoflagger.cpp` lines 24-34), in
declaration order.  `LARGE_BANDWIDTH`, `SMALL_BANDWIDTH` and
`AUTO_CORRELATION` are referenced by `defaultstrategy.cpp` but are not
declared in the facade sources under review. -/
def publicNames : List String :=
  ["NONE", "LOW_FREQUENCY", "HIGH_FREQUENCY", "TRANSIENTS", "ROBUST",
   "FAST", "OFF_AXIS_SOURCES", "UNSENSITIVE", "SENSITIVE",
   "GUI_FRIENDLY", "CLEAR_FLAGS"]

end StrategyFlags

/-- `enum TelescopeId` from `aoflagger.h` lines 24-33. -/
inductive TelescopeId where
  | GENERIC_TELESCOPE
  | LOFAR_TELESCOPE
  | MWA_TELESCOPE
  | WSRT_TELESCOPE
deriving DecidableEq

end aoflagger

namespace rfiStrategy

/-! `DefaultStrategy::FLAG_*` aliases (`defaultstrategy.cpp` lines 27-41). -/

def DefaultStrategy.FLAG_NONE : ℕ := aoflagger.StrategyFlags.NONE

def DefaultStrategy.FLAG_LOW_FREQUENCY : ℕ := aoflagger.StrategyFlags.LOW_FREQUENCY

def DefaultStrategy.FLAG_HIGH_FREQUENCY : ℕ := aoflagger.StrategyFlags.HIGH_FREQUENCY

/-- Modelled from the spec: `defaultstrategy.cpp` line 31 aliases
`aoflagger::StrategyFlags::LARGE_BANDWIDTH`, but no definition of that
constant appears in the facade sources under review; the spec bit table (§6)
assigns it 0x004.  (The facade under review assigns 0x04 to `TRANSIENTS`; the
overlap is irrelevant to the theorems below, which test the same bit masks on
both sides.) -/
def DefaultStrategy.FLAG_LARGE_BANDWIDTH : ℕ := 0x004

/-- Modelled from the spec: as for `FLAG_LARGE_BANDWIDTH`; the spec bit table
(§6) assigns `SMALL_BANDWIDTH` the value 0x008. -/
def DefaultStrategy.FLAG_SMALL_BANDWIDTH : ℕ := 0x008

def DefaultStrategy.FLAG_TRANSIENTS : ℕ := aoflagger.StrategyFlags.TRANSIENTS

def DefaultStrategy.FLAG_ROBUST : ℕ := aoflagger.StrategyFlags.ROBUST

def DefaultStrategy.FLAG_FAST : ℕ := aoflagger.StrategyFlags.FAST

def DefaultStrategy.FLAG_OFF_AXIS_SOURCES : ℕ := aoflagger.StrategyFlags.OFF_AXIS_SOURCES

def DefaultStrategy.FLAG_UNSENSITIVE : ℕ := aoflagger.StrategyFlags.UNSENSITIVE

def DefaultStrategy.FLAG_SENSITIVE : ℕ := aoflagger.StrategyFlags.SENSITIVE

def DefaultStrategy.FLAG_GUI_FRIENDLY : ℕ := aoflagger.StrategyFlags.GUI_FRIENDLY

def DefaultStrategy.FLAG_CLEAR_FLAGS : ℕ := aoflagger.StrategyFlags.CLEAR_FLAGS

/-- Modelled from the spec: as for `FLAG_LARGE_BANDWIDTH`; the spec bit table
(§6) assigns `AUTO_CORRELATION` the value 0x1000. -/
def DefaultStrategy.FLAG_AUTO_CORRELATION : ℕ := 0x1000

/-- `SetFlaggingAction::NewFlaggingType` values used by the sources under
review.  Modelled from the spec (§4.H) for the header that is not under
review: modes `None` (clear), `PolarisationsEqual` and `OrOriginal`; a
default-constructed `SetFlaggingAction` clears (the spec tree §4.I shows
`SetFlagging(clear)` for the plain constructor). -/
inductive SetFlaggingMode where
  | none
  | polarisationsEqual
  | orOriginal
deriving DecidableEq

/-- `SumThresholdAction` configuration.  Modelled from the spec for the
defaults (the action header is not under review): §4.D runs both the time and
the frequency direction unless disabled, and the default base sensitivity is
1.0 (§4.I shows `base=1.0` where the builder sets it explicitly and no base
for the default-constructed one). -/
structure SumThresholdConfig where
  baseSensitivity : ℚ := 1
  timeDirectionFlagging : Bool := true
  frequencyDirectionFlagging : Bool := true
deriving DecidableEq

/-- `HighPassFilterAction::Mode` (`defaultstrategy.cpp` line 143 uses
`StoreRevised`). -/
inductive HighPassFilterMode where
  | storeRevised
  | storeContaminated
deriving DecidableEq

/-- `HighPassFilterAction` configuration.  Defaults modelled from the spec
(the action header is not under review): only `hKernelSigmaSq`'s default is
observable, in the builder's `keepTransients` branch, where the spec tree
(§4.I) shows σ_t² = 2.5; the other defaults are immaterial because the
builder always overwrites them. -/
structure HighPassFilterConfig where
  windowWidth : ℕ := 1
  windowHeight : ℕ := 1
  hKernelSigmaSq : ℚ := 2.5
  vKernelSigmaSq : ℚ := 1
  mode : HighPassFilterMode := .storeContaminated
deriving DecidableEq

/-- `PlotAction::PlotKind` values used by the sources under review. -/
inductive PlotKind where
  | polarizationStatisticsPlot
  | antennaFlagCountPlot
  | frequencyFlagCountPlot
deriving DecidableEq

/-- `StatisticalFlagAction` configuration (fields `_enlargeTimeSize`,
`_enlargeFrequencySize`, `_minimumGoodTimeRatio`,
`_minimumGoodFrequencyRatio` of `statisticalflagaction.cpp`).  Defaults
modelled from the spec (the action header is not under review): §4.E gives
typical ratios 0.2; the enlargement sizes default to 0. -/
structure StatisticalFlagConfig where
  enlargeTimeSize : ℕ := 0
  enlargeFrequencySize : ℕ := 0
  minimumGoodTimeRatio : ℚ := 0.2
  minimumGoodFrequencyRatio : ℚ := 0.2
deriving DecidableEq

/-- The action tree (§4.H): one constructor per action class that the sources
under review construct, block actions carrying their ordered children. -/
inductive Action where
  | setImage
  | setFlagging (newFlagging : SetFlaggingMode)
  | forEachPolarisation (children : List Action)
  | forEachComplexComponent (onAmplitude onImaginary onReal onPhase restoreFromAmplitude : Bool)
      (children : List Action)
  | iterationBlock (iterationCount : ℕ) (sensitivityStart : ℚ) (children : List Action)
  | sumThreshold (cfg : SumThresholdConfig)
  | combineFlagResults (children : List Action)
  | frequencySelection
  | timeSelection
  | changeResolution (timeDecreaseFactor frequencyDecreaseFactor : ℕ) (children : List Action)
  | highPassFilter (cfg : HighPassFilterConfig)
  | calibratePassband
  | plot (kind : PlotKind)
  | statisticalFlag (cfg : StatisticalFlagConfig)
  | baselineSelection (preparationStep : Bool)
  | strategy (children : List Action)

/-- `DefaultStrategy::LoadSingleStrategy` (`defaultstrategy.cpp` lines
68-192): the ordered list of actions added to `block`.  The iteration block's
sensitivity start is `2.0 * pow(2.0, iterationCount / 2.0)` in the C++; for
the even iteration counts `LoadStrategy` produces (2 or 4) this equals
`2 * 2 ^ (iterationCount / 2)` exactly, which is how it is embedded here (an
odd count, which `LoadStrategy` never passes, would involve √2 and is outside
this embedding). -/
def DefaultStrategy.loadSingleStrategy (iterationCount : ℕ)
    (keepTransients calPassband clearFlags resetContaminated : Bool) : List Action :=
  let t1 : SumThresholdConfig :=
    let c : SumThresholdConfig := { baseSensitivity := 1 }
    if keepTransients then { c with frequencyDirectionFlagging := false } else c
  let cfr1 : Action :=
    .combineFlagResults
      ([.frequencySelection] ++ if !keepTransients then [.timeSelection] else [])
  let hpCfg : HighPassFilterConfig :=
    let h : HighPassFilterConfig :=
      if keepTransients then { windowWidth := 1 }
      else { hKernelSigmaSq := 2.5, windowWidth := 21 }
    { h with vKernelSigmaSq := 5, windowHeight := 31, mode := .storeRevised }
  let changeRes : Action :=
    .changeResolution (if keepTransients then 1 else 3) 3 [.highPassFilter hpCfg]
  let iter : Action :=
    .iterationBlock iterationCount (2 * 2 ^ (iterationCount / 2))
      [.sumThreshold t1, cfr1, .setImage, changeRes]
  let t2 : SumThresholdConfig :=
    let c : SumThresholdConfig := {}
    if keepTransients then { c with frequencyDirectionFlagging := false } else c
  let foc : Action :=
    .forEachComplexComponent true false false false false
      ([iter] ++ (if calPassband then [.calibratePassband] else []) ++ [.sumThreshold t2])
  let pedantic : Bool := false
  (if resetContaminated then [.setImage] else []) ++
  [.setFlagging .none,
   .forEachPolarisation [foc],
   .plot .polarizationStatisticsPlot,
   .setFlagging .polarisationsEqual,
   .statisticalFlag {}] ++
  (if pedantic then
    [.combineFlagResults
      ([.frequencySelection] ++ if !keepTransients then [.timeSelection] else [])]
   else if !keepTransients then [.timeSelection] else []) ++
  [.baselineSelection true] ++
  (if !clearFlags then [.setFlagging .orOriginal] else [])

/-- `DefaultStrategy::LoadStrategy` (`defaultstrategy.cpp` lines 50-66).  The
`frequency`, `timeRes` and `frequencyRes` parameters are unused by the source
and omitted here. -/
def DefaultStrategy.loadStrategy (telescopeId : aoflagger.TelescopeId) (flags : ℕ) :
    List Action :=
  let calPassband : Bool :=
    (decide (telescopeId = .MWA_TELESCOPE) &&
      (flags &&& DefaultStrategy.FLAG_SMALL_BANDWIDTH == 0)) ||
    (flags &&& DefaultStrategy.FLAG_LARGE_BANDWIDTH != 0)
  let keepTransients : Bool := flags &&& DefaultStrategy.FLAG_TRANSIENTS != 0
  let clearFlags : Bool :=
    (flags &&& DefaultStrategy.FLAG_CLEAR_FLAGS != 0) ||
    (flags &&& DefaultStrategy.FLAG_GUI_FRIENDLY != 0)
  let resetContaminated : Bool := flags &&& DefaultStrategy.FLAG_GUI_FRIENDLY != 0
  let iterationCount : ℕ := if flags &&& DefaultStrategy.FLAG_ROBUST == 0 then 2 else 4
  DefaultStrategy.loadSingleStrategy iterationCount keepTransients calPassband
    clearFlags resetContaminated

/-- `DefaultStrategy::CreateStrategy` (`defaultstrategy.cpp` lines 43-48):
a fresh root `Strategy` block filled by `LoadStrategy`. -/
def DefaultStrategy.createStrategy (telescopeId : aoflagger.TelescopeId) (flags : ℕ) :
    Action :=
  .strategy (DefaultStrategy.loadStrategy telescopeId flags)

mutual

/-- The node itself followed by every node of its subtrees, depth-first. -/
def Action.nodes : Action → List Action
  | .forEachPolarisation cs => .forEachPolarisation cs :: Action.nodesList cs
  | .forEachComplexComponent b1 b2 b3 b4 b5 cs =>
      .forEachComplexComponent b1 b2 b3 b4 b5 cs :: Action.nodesList cs
  | .iterationBlock n s cs => .iterationBlock n s cs :: Action.nodesList cs
  | .combineFlagResults cs => .combineFlagResults cs :: Action.nodesList cs
  | .changeResolution tf ff cs => .changeResolution tf ff cs :: Action.nodesList cs
  | .strategy cs => .strategy cs :: Action.nodesList cs
  | a => [a]

/-- Concatenation of `Action.nodes` over a list of trees. -/
def Action.nodesList : List Action → List Action
  | [] => []
  | a :: as => Action.nodes a ++ Action.nodesList as

end

/-- Whether an action is not a `SumThresholdAction` with frequency-direction
flagging enabled. -/
def Action.sumThresholdFreqDirOff : Action → Bool
  | .sumThreshold c => !c.frequencyDirectionFlagging
  | _ => true

/-- Whether an action is a `SumThresholdAction`. -/
def Action.isSumThreshold : Action → Bool
  | .sumThreshold _ => true
  | _ => false

/-- Whether an action is a `CalibratePassbandAction`. -/
def Action.isCalibratePassband : Action → Bool
  | .calibratePassband => true
  | _ => false

/-- The `(iterationCount, sensitivityStart)` pairs of all iteration blocks in
a tree, depth-first. -/
def Action.iterationParams (a : Action) : List (ℕ × ℚ) :=
  a.nodes.filterMap fun n =>
    match n with
    | .iterationBlock c s _ => some (c, s)
    | _ => none

/-- The children of the root block. -/
def Action.children : Action → List Action
  | .forEachPolarisation cs => cs
  | .forEachComplexComponent _ _ _ _ _ cs => cs
  | .iterationBlock _ _ cs => cs
  | .combineFlagResults cs => cs
  | .changeResolution _ _ cs => cs
  | .strategy cs => cs
  | _ => []

end rfiStrategy

/-- A time-frequency image (`Image2D`).  The C++ stores 32-bit floats; the
claims settled here do no floating-point arithmetic on pixel values (only
creation, copying and equality), so pixels are modelled as rationals. -/
structure Image2D where
  width : ℕ
  height : ℕ
  pixel : ℕ → ℕ → ℚ

/-- `Image2D::CreateZeroImagePtr`. -/
def Image2D.createZeroImage (width height : ℕ) : Image2D :=
  ⟨width, height, fun _ _ => 0⟩

/-- `Image2D::CreateSetImagePtr`. -/
def Image2D.createSetImage (width height : ℕ) (initialValue : ℚ) : Image2D :=
  ⟨width, height, fun _ _ => initialValue⟩

/-- A boolean flag mask (`Mask2D`); `true` means flagged. -/
structure Mask2D where
  width : ℕ
  height : ℕ
  flag : ℕ → ℕ → Bool

/-- `Mask2D::CreateSetMaskPtr<false>`. -/
def Mask2D.createSetMaskFalse (width height : ℕ) : Mask2D :=
  ⟨width, height, fun _ _ => false⟩

/-- `Mask2D::CreateCopy`; under value semantics the deep copy is pointwise
identical to its source. -/
def Mask2D.createCopy (m : Mask2D) : Mask2D :=
  ⟨m.width, m.height, fun x y => m.flag x y⟩

/-- Pointwise OR of two masks (all uses have equal shapes). -/
def Mask2D.orMask (a b : Mask2D) : Mask2D :=
  ⟨a.width, a.height, fun x y => a.flag x y || b.flag x y⟩

/-- Number of flagged samples of row `y` on the column interval `[a, b]`. -/
def Mask2D.rowFlagCount (m : Mask2D) (y a b : ℕ) : ℕ :=
  ((List.range (b + 1 - a)).filter fun k => m.flag (a + k) y).length

/-- Number of flagged samples of column `x` on the row interval `[a, b]`. -/
def Mask2D.colFlagCount (m : Mask2D) (x a b : ℕ) : ℕ :=
  ((List.range (b + 1 - a)).filter fun k => m.flag x (a + k)).length

/-- The layout kinds of the `TimeFrequencyData` values constructed by
`AOFlagger::Run` (`aoflagger.cpp` lines 330-366): count 1 wraps the amplitude
of one polarization, 2 the real/imaginary parts of one polarization, 4 the
complex values of two (auto-dipole) polarizations, 8 the complex values of
four polarizations; `empty` is the default-constructed value. -/
inductive TFDataKind where
  | amplitudeSingle
  | complexSingle
  | autoDipole
  | fullDipole
  | empty
deriving DecidableEq

/-- `TimeFrequencyData` (§3): a kind, the image handles, and either one
global mask or one mask per polarization pair. -/
structure TimeFrequencyData where
  kind : TFDataKind
  images : List Image2D
  masks : List Mask2D

/-- A default-constructed `TimeFrequencyData`. -/
def TimeFrequencyData.empty : TimeFrequencyData := ⟨.empty, [], []⟩

/-- `TimeFrequencyData::SetGlobalMask`. -/
def TimeFrequencyData.setGlobalMask (d : TimeFrequencyData) (m : Mask2D) :
    TimeFrequencyData :=
  { d with masks := [m] }

/-- `TimeFrequencyData::SetIndividualPolarisationMasks` with two masks. -/
def TimeFrequencyData.setIndividualMasks2 (d : TimeFrequencyData) (m1 m2 : Mask2D) :
    TimeFrequencyData :=
  { d with masks := [m1, m2] }

/-- `TimeFrequencyData::SetIndividualPolarisationMasks` with four masks. -/
def TimeFrequencyData.setIndividualMasks4 (d : TimeFrequencyData)
    (m1 m2 m3 m4 : Mask2D) : TimeFrequencyData :=
  { d with masks := [m1, m2, m3, m4] }

/-- Modelled from the spec: `TimeFrequencyData::GetSingleMask` is not under
review; §3 says a `TimeFrequencyData` holds one global mask or one per
polarization pair, and §9 says per-polarization masks are combined into the
single mask, modelled here as their pointwise OR (a single global mask is
returned as it is). -/
def TimeFrequencyData.getSingleMask (d : TimeFrequencyData) : Mask2D :=
  match d.masks with
  | [] => ⟨0, 0, fun _ _ => false⟩
  | m :: rest => rest.foldl Mask2D.orMask m

/-- `ArtifactSet` (§3, §4.G): the three `TimeFrequencyData` slots threaded
through the action tree.  The auxiliary scratch slots and the mutex handle
play no part in the claims settled here. -/
structure ArtifactSet where
  originalData : TimeFrequencyData
  contaminatedData : TimeFrequencyData
  revisedData : TimeFrequencyData

namespace rfiStrategy

/-- Modelled from the spec (§4.F): `StatisticalFlagger::DilateFlags(mask, Δt,
Δf)` — not under review — sets a pixel flagged iff some flagged pixel lies
within `Δt` columns and `Δf` rows of it. -/
def StatisticalFlagger.dilateFlags (mask : Mask2D)
    (enlargeTime enlargeFrequency : ℕ) : Mask2D :=
  { mask with flag := fun x y =>
      (List.range mask.width).any fun x2 =>
        (List.range mask.height).any fun y2 =>
          mask.flag x2 y2 &&
          decide ((x2 : ℤ) - (x : ℤ) ≤ enlargeTime) &&
          decide ((x : ℤ) - (x2 : ℤ) ≤ enlargeTime) &&
          decide ((y2 : ℤ) - (y : ℤ) ≤ enlargeFrequency) &&
          decide ((y : ℤ) - (y2 : ℤ) ≤ enlargeFrequency) }

/-- Modelled from the spec (§4.E): the SIR operator — not under review —
flags output sample `i` of a strip iff some interval `[a, b]` containing `i`
has flagged-count at least `η · (b − a + 1)`.
`SIROperator::OperateHorizontally` applies this to every row. -/
def SIROperator.operateHorizontally (mask : Mask2D) (eta : ℚ) : Mask2D :=
  { mask with flag := fun x y =>
      (List.range (x + 1)).any fun a =>
        (List.range mask.width).any fun b =>
          decide (x ≤ b) &&
          decide (eta * ((b : ℚ) + 1 - (a : ℚ)) ≤ (mask.rowFlagCount y a b : ℚ)) }

/-- Modelled from the spec (§4.E), as `SIROperator.operateHorizontally`:
`SIROperator::OperateVertically` applies the SIR operator to every column. -/
def SIROperator.operateVertically (mask : Mask2D) (eta : ℚ) : Mask2D :=
  { mask with flag := fun x y =>
      (List.range (y + 1)).any fun a =>
        (List.range mask.height).any fun b =>
          decide (y ≤ b) &&
          decide (eta * ((b : ℚ) + 1 - (a : ℚ)) ≤ (mask.colFlagCount x a b : ℚ)) }

/-- `StatisticalFlagAction::Perform` (`statisticalflagaction.cpp` lines
12-22): copy the contaminated data's single mask, dilate it by the configured
enlargement sizes, apply the SIR operator horizontally with the minimum good
time ratio and then vertically with the minimum good frequency ratio, and
install the result as the contaminated data's global mask. -/
def StatisticalFlagAction.performOn (cfg : StatisticalFlagConfig)
    (artifacts : ArtifactSet) : ArtifactSet :=
  let data := artifacts.contaminatedData
  let mask0 := Mask2D.createCopy data.getSingleMask
  let mask1 := StatisticalFlagger.dilateFlags mask0 cfg.enlargeTimeSize cfg.enlargeFrequencySize
  let mask2 := SIROperator.operateHorizontally mask1 cfg.minimumGoodTimeRatio
  let mask3 := SIROperator.operateVertically mask2 cfg.minimumGoodFrequencyRatio
  { artifacts with contaminatedData := data.setGlobalMask mask3 }

/-- A program point for the execution relation: a single action, or the
ordered children of a block. -/
inductive Prog where
  | act (action : Action)
  | seq (children : List Action)

/-- The execution relation of the action tree (§4.G, §4.H).
`StatisticalFlagAction::Perform` is under review and executes exactly as
`StatisticalFlagAction.performOn`.  The other leaf implementations are not
under review and are modelled from the spec (§4.G): an action may read
`original` and may mutate only `contaminated` and `revised`.  A block
executes as a finite chain of child executions interleaved with the block's
own adaptation steps (iteration bookkeeping, per-polarization and
per-component data exposure, resolution changes), which per §4.G/§4.H also
touch only the contaminated and revised slots; the chain abstracts over
ordering and repetition count, on which no claim settled here depends. -/
inductive Performs : Prog → ArtifactSet → ArtifactSet → Prop where
  | setImage (a a' : ArtifactSet) :
      a'.originalData = a.originalData → Performs (.act .setImage) a a'
  | setFlagging (m : SetFlaggingMode) (a a' : ArtifactSet) :
      a'.originalData = a.originalData → Performs (.act (.setFlagging m)) a a'
  | sumThreshold (c : SumThresholdConfig) (a a' : ArtifactSet) :
      a'.originalData = a.originalData → Performs (.act (.sumThreshold c)) a a'
  | frequencySelection (a a' : ArtifactSet) :
      a'.originalData = a.originalData → Performs (.act .frequencySelection) a a'
  | timeSelection (a a' : ArtifactSet) :
      a'.originalData = a.originalData → Performs (.act .timeSelection) a a'
  | highPassFilter (c : HighPassFilterConfig) (a a' : ArtifactSet) :
      a'.originalData = a.originalData → Performs (.act (.highPassFilter c)) a a'
  | calibratePassband (a a' : ArtifactSet) :
      a'.originalData = a.originalData → Performs (.act .calibratePassband) a a'
  | plot (k : PlotKind) (a a' : ArtifactSet) :
      a'.originalData = a.originalData → Performs (.act (.plot k)) a a'
  | baselineSelection (p : Bool) (a a' : ArtifactSet) :
      a'.originalData = a.originalData → Performs (.act (.baselineSelection p)) a a'
  | statisticalFlag (c : StatisticalFlagConfig) (a : ArtifactSet) :
      Performs (.act (.statisticalFlag c)) a (StatisticalFlagAction.performOn c a)
  | strategy (cs : List Action) (a a' : ArtifactSet) :
      Performs (.seq cs) a a' → Performs (.act (.strategy cs)) a a'
  | forEachPolarisation (cs : List Action) (a a' : ArtifactSet) :
      Performs (.seq cs) a a' → Performs (.act (.forEachPolarisation cs)) a a'
  | forEachComplexComponent (b1 b2 b3 b4 b5 : Bool) (cs : List Action)
      (a a' : ArtifactSet) :
      Performs (.seq cs) a a' →
      Performs (.act (.forEachComplexComponent b1 b2 b3 b4 b5 cs)) a a'
  | iterationBlock (n : ℕ) (s : ℚ) (cs : List Action) (a a' : ArtifactSet) :
      Performs (.seq cs) a a' → Performs (.act (.iterationBlock n s cs)) a a'
  | combineFlagResults (cs : List Action) (a a' : ArtifactSet) :
      Performs (.seq cs) a a' → Performs (.act (.combineFlagResults cs)) a a'
  | changeResolution (tf ff : ℕ) (cs : List Action) (a a' : ArtifactSet) :
      Performs (.seq cs) a a' → Performs (.act (.changeResolution tf ff cs)) a a'
  | seqDone (cs : List Action) (a : ArtifactSet) : Performs (.seq cs) a a
  | seqChild (cs : List Action) (c : Action) (a b d : ArtifactSet) :
      c ∈ cs → Performs (.act c) a b → Performs (.seq cs) b d →
      Performs (.seq cs) a d
  | seqAdapt (cs : List Action) (a b d : ArtifactSet) :
      b.originalData = a.originalData → Performs (.seq cs) b d →
      Performs (.seq cs) a d

end rfiStrategy

namespace aoflagger

/-- The error kinds of §7 that the facade sources under review can raise. -/
inductive FlagError where
  | configError (message : String)
deriving DecidableEq

/-- `ImageSet`: the facade's bundle of 1, 2, 4 or 8 image buffers
(`aoflagger.h` lines 138-195, `ImageSetData` of `aoflagger.cpp`). -/
structure ImageSet where
  images : List Image2D

/-- `ImageSet::ImageCount`. -/
def ImageSet.imageCount (s : ImageSet) : ℕ := s.images.length

/-- `ImageSet::Width` (`_data->images[0]->Width()`). -/
def ImageSet.width (s : ImageSet) : ℕ :=
  match s.images with
  | [] => 0
  | i :: _ => i.width

/-- `ImageSet::Height` (`_data->images[0]->Height()`). -/
def ImageSet.height (s : ImageSet) : ℕ :=
  match s.images with
  | [] => 0
  | i :: _ => i.height

/-- Image access `_data->images[i]`, in bounds in every use below. -/
def ImageSet.image (s : ImageSet) (i : ℕ) : Image2D :=
  s.images.getD i (Image2D.createZeroImage 0 0)

/-- The message of `ImageSet::assertValidCount` (`aoflagger.cpp` line 91). -/
def ImageSet.invalidCountMessage : String :=
  "Invalid count specified when creating image set for aoflagger; should be 1, 2, 4 or 8."

/-- `ImageSet::assertValidCount` (`aoflagger.cpp` lines 88-92); throwing is
modelled as returning the error. -/
def ImageSet.assertValidCount (count : ℕ) : Except FlagError Unit :=
  if count ≠ 1 ∧ count ≠ 2 ∧ count ≠ 4 ∧ count ≠ 8 then
    .error (.configError ImageSet.invalidCountMessage)
  else .ok ()

/-- The `ImageSet(width, height, count, initialValue)` constructor
(`aoflagger.cpp` lines 64-70), reached through `AOFlagger::MakeImageSet`:
`assertValidCount` throws for a count outside {1, 2, 4, 8}; otherwise the set
holds `count` images of the given shape set to `initialValue`. -/
def AOFlagger.makeImageSet (width height count : ℕ) (initialValue : ℚ) :
    Except FlagError ImageSet :=
  match ImageSet.assertValidCount count with
  | .error e => .error e
  | .ok _ => .ok ⟨List.replicate count (Image2D.createSetImage width height initialValue)⟩

/-- The artifact set `AOFlagger::Run` builds before invoking the root action
(`aoflagger.cpp` lines 327-369): an all-false mask and an all-zero image of
the input's shape; the input images wrapped as the `TimeFrequencyData` chosen
by the image count, with that mask installed, placed in both the original and
the contaminated slot; and a revised `TimeFrequencyData` of the same layout
built from the all-zero image, with the same mask.  The C++ `switch` has no
`default` branch, so any other count leaves the two `TimeFrequencyData`
values default-constructed. -/
def AOFlagger.runInitialArtifacts (input : ImageSet) : ArtifactSet :=
  let mask := Mask2D.createSetMaskFalse input.width input.height
  let zeroImage := Image2D.createZeroImage input.width input.height
  let pair : TimeFrequencyData × TimeFrequencyData :=
    if input.imageCount = 1 then
      ((TimeFrequencyData.mk .amplitudeSingle [input.image 0] []).setGlobalMask mask,
       (TimeFrequencyData.mk .amplitudeSingle [zeroImage] []).setGlobalMask mask)
    else if input.imageCount = 2 then
      ((TimeFrequencyData.mk .complexSingle [input.image 0, input.image 1] []).setGlobalMask mask,
       (TimeFrequencyData.mk .complexSingle [zeroImage, zeroImage] []).setGlobalMask mask)
    else if input.imageCount = 4 then
      ((TimeFrequencyData.mk .autoDipole
          [input.image 0, input.image 1, input.image 2, input.image 3]
          []).setIndividualMasks2 mask mask,
       (TimeFrequencyData.mk .autoDipole
          [zeroImage, zeroImage, zeroImage, zeroImage] []).setIndividualMasks2 mask mask)
    else if input.imageCount = 8 then
      ((TimeFrequencyData.mk .fullDipole
          [input.image 0, input.image 1, input.image 2, input.image 3,
           input.image 4, input.image 5, input.image 6, input.image 7]
          []).setIndividualMasks4 mask mask mask mask,
       (TimeFrequencyData.mk .fullDipole
          [zeroImage, zeroImage, zeroImage, zeroImage,
           zeroImage, zeroImage, zeroImage, zeroImage]
          []).setIndividualMasks4 mask mask mask mask)
    else (TimeFrequencyData.empty, TimeFrequencyData.empty)
  ⟨pair.1, pair.1, pair.2⟩

/-- `AOFlagger::Run` (`aoflagger.cpp` lines 321-376) as a relation on the
`Except`-wrapped image-set construction: a failed construction never reaches
the strategy (`RunOutcome.err` does not inspect it); for a constructed image
set, `Run` builds the initial artifact set, has the root action perform on
it, and returns a copy of the contaminated data's single mask. -/
inductive AOFlagger.RunOutcome (strategy : rfiStrategy.Action) :
    Except FlagError ImageSet → Except FlagError Mask2D → Prop where
  | err (e : FlagError) : AOFlagger.RunOutcome strategy (.error e) (.error e)
  | ok (input : ImageSet) (a' : ArtifactSet) :
      rfiStrategy.Performs (.act strategy) (AOFlagger.runInitialArtifacts input) a' →
      AOFlagger.RunOutcome strategy (.ok input)
        (.ok (Mask2D.createCopy a'.contaminatedData.getSingleMask))

/-- Allocation model for the facade's pImpl wrappers: a bump allocator
(`next` is the next fresh address, so every live wrapper's address is below
`next`) and the sequence of addresses released so far (`delete` appends; the
facade's destructors release unconditionally). -/
structure AllocState where
  next : ℕ
  freed : List ℕ

/-- `new`: returns a fresh address. -/
def AllocState.alloc (st : AllocState) : ℕ × AllocState :=
  (st.next, ⟨st.next + 1, st.freed⟩)

/-- `delete p`. -/
def AllocState.del (st : AllocState) (p : ℕ) : AllocState :=
  ⟨st.next, st.freed ++ [p]⟩

/-- A facade `Strategy`: its `StrategyData*` member. -/
structure Strategy where
  dataPtr : ℕ

/-- A facade `ImageSet` handle: its `ImageSetData*` member. -/
structure ImageSetHandle where
  dataPtr : ℕ

/-- A facade `FlagMask`: its `FlagMaskData*` member. -/
structure FlagMask where
  dataPtr : ℕ

/-- A facade `QualityStatistics`: its `QualityStatisticsData*` member. -/
structure QualityStatistics where
  dataPtr : ℕ

/-- `Strategy::Strategy(const Strategy&)` (`aoflagger.cpp` lines 161-164):
`_data(sourceStrategy._data)` — the wrapper pointer itself is copied and
nothing is allocated. -/
def Strategy.copyCtor (source : Strategy) (st : AllocState) : Strategy × AllocState :=
  (⟨source.dataPtr⟩, st)

/-- `Strategy::~Strategy()` (`aoflagger.cpp` lines 166-169): `delete _data`. -/
def Strategy.dtor (s : Strategy) (st : AllocState) : AllocState :=
  st.del s.dataPtr

/-- `ImageSet::ImageSet(const ImageSet&)` (`aoflagger.cpp` lines 72-75):
`_data(new ImageSetData(*sourceImageSet._data))` — a fresh wrapper is
allocated. -/
def ImageSetHandle.copyCtor (source : ImageSetHandle) (st : AllocState) :
    ImageSetHandle × AllocState :=
  let r := st.alloc
  (⟨r.1⟩, r.2)

/-- `FlagMask::FlagMask(const FlagMask&)` (`aoflagger.cpp` lines 201-204):
`_data(new FlagMaskData(*sourceMask._data))` — a fresh wrapper is
allocated. -/
def FlagMask.copyCtor (source : FlagMask) (st : AllocState) :
    FlagMask × AllocState :=
  let r := st.alloc
  (⟨r.1⟩, r.2)

/-- `QualityStatistics::QualityStatistics(const QualityStatistics&)`
(`aoflagger.cpp` lines 270-273): `_data(new QualityStatisticsData(...))` — a
fresh wrapper is allocated. -/
def QualityStatistics.copyCtor (source : QualityStatistics) (st : AllocState) :
    QualityStatistics × AllocState :=
  let r := st.alloc
  (⟨r.1⟩, r.2)

end aoflagger

/-- A small concrete artifact set used by the witnesses below. -/
def artifactExample : ArtifactSet :=
  ⟨TimeFrequencyData.empty, TimeFrequencyData.empty, TimeFrequencyData.empty⟩

/-- A small concrete one-image `ImageSet` used by the witnesses below. -/
def imageSetExample : aoflagger.ImageSet :=
  ⟨[Image2D.createSetImage 2 2 3]⟩

namespace rfiStrategy

/-- Helper: with `keepTransients = true`, every `SumThreshold` node of the
tree built by `LoadSingleStrategy` has frequency-direction flagging off. -/
theorem loadSingleStrategy_keepTransients_freqDirOff (n : ℕ) (cp cf rc : Bool) :
    ((Action.strategy (DefaultStrategy.loadSingleStrategy n true cp cf rc)).nodes.all
      Action.sumThresholdFreqDirOff) = true := by
  cases cp <;> cases cf <;> cases rc <;> rfl

/-- Helper: the tree built by `LoadSingleStrategy` always contains a
`SumThreshold` node. -/
theorem loadSingleStrategy_hasSumThreshold (n : ℕ) (kt cp cf rc : Bool) :
    ((Action.strategy (DefaultStrategy.loadSingleStrategy n kt cp cf rc)).nodes.any
      Action.isSumThreshold) = true := by
  cases kt <;> cases cp <;> cases cf <;> cases rc <;> rfl

/-- C2: for every flags value with the `TRANSIENTS` bit set, every
`SumThreshold` action contained in the tree produced by the default-strategy
builder has frequency-direction flagging disabled (and such actions do
occur in the tree), so that tree never flags in the frequency direction
inside `SumThreshold`. -/
theorem defaultStrategy_transients_disables_freq_direction
    (telescopeId : aoflagger.TelescopeId) (flags : ℕ)
    (h : flags &&& DefaultStrategy.FLAG_TRANSIENTS ≠ 0) :
    ((DefaultStrategy.createStrategy telescopeId flags).nodes.all
        Action.sumThresholdFreqDirOff) = true ∧
    ((DefaultStrategy.createStrategy telescopeId flags).nodes.any
        Action.isSumThreshold) = true := by
  have hk : (flags &&& DefaultStrategy.FLAG_TRANSIENTS != 0) = true := by
    simpa using h
  simp only [DefaultStrategy.createStrategy, DefaultStrategy.loadStrategy, hk]
  exact ⟨loadSingleStrategy_keepTransients_freqDirOff _ _ _ _,
    loadSingleStrategy_hasSumThreshold _ _ _ _ _⟩

/-- Witness for C2 at `flags = 0x04`. -/
theorem defaultStrategy_transients_disables_freq_direction_witness :
    ((DefaultStrategy.createStrategy .GENERIC_TELESCOPE 0x04).nodes.all
        Action.sumThresholdFreqDirOff) = true ∧
    ((DefaultStrategy.createStrategy .GENERIC_TELESCOPE 0x04).nodes.any
        Action.isSumThreshold) = true :=
  defaultStrategy_transients_disables_freq_direction .GENERIC_TELESCOPE 0x04 (by decide)

/-- Helper: the tree built by `LoadSingleStrategy` has exactly one iteration
block, carrying the given count and the sensitivity `2 * 2 ^ (count / 2)`. -/
theorem loadSingleStrategy_iterationParams (n : ℕ) (kt cp cf rc : Bool) :
    (Action.strategy (DefaultStrategy.loadSingleStrategy n kt cp cf rc)).iterationParams =
      [(n, 2 * 2 ^ (n / 2))] := by
  cases kt <;> cases cp <;> cases cf <;> cases rc <;> rfl

/-- C7: for every flags value, the default-strategy builder's single
iteration block has count 4 when `ROBUST` is set and 2 otherwise, with
starting sensitivity `2 * 2 ^ (count / 2)`, i.e. 4 for two iterations and 8
for four. -/
theorem defaultStrategy_iteration_count_and_sensitivity
    (telescopeId : aoflagger.TelescopeId) (flags : ℕ) :
    (DefaultStrategy.createStrategy telescopeId flags).iterationParams =
      [((if flags &&& DefaultStrategy.FLAG_ROBUST ≠ 0 then 4 else 2 : ℕ),
        (if flags &&& DefaultStrategy.FLAG_ROBUST ≠ 0 then 8 else 4 : ℚ))] ∧
    (2 * 2 ^ (2 / 2 : ℕ) : ℚ) = 4 ∧ (2 * 2 ^ (4 / 2 : ℕ) : ℚ) = 8 := by
  refine ⟨?_, by norm_num, by norm_num⟩
  simp only [DefaultStrategy.createStrategy, DefaultStrategy.loadStrategy]
  rw [loadSingleStrategy_iterationParams]
  by_cases hr : flags &&& DefaultStrategy.FLAG_ROBUST = 0 <;> simp [hr] <;> norm_num

/-- Helper: the tree built by `LoadSingleStrategy` contains a
`CalibratePassband` action exactly when `calPassband` is set. -/
theorem loadSingleStrategy_calPassband (n : ℕ) (kt cp cf rc : Bool) :
    ((Action.strategy (DefaultStrategy.loadSingleStrategy n kt cp cf rc)).nodes.any
      Action.isCalibratePassband) = cp := by
  cases kt <;> cases cp <;> cases cf <;> cases rc <;> rfl

/-- C8: for every telescope id and flags value, the tree produced by the
default-strategy builder contains a `CalibratePassband` action iff the
telescope is MWA and `SMALL_BANDWIDTH` is not set, or `LARGE_BANDWIDTH` is
set. -/
theorem defaultStrategy_calibrates_passband_iff
    (telescopeId : aoflagger.TelescopeId) (flags : ℕ) :
    ((DefaultStrategy.createStrategy telescopeId flags).nodes.any
        Action.isCalibratePassband) = true ↔
      ((telescopeId = .MWA_TELESCOPE ∧
          flags &&& DefaultStrategy.FLAG_SMALL_BANDWIDTH = 0) ∨
        flags &&& DefaultStrategy.FLAG_LARGE_BANDWIDTH ≠ 0) := by
  simp only [DefaultStrategy.createStrategy, DefaultStrategy.loadStrategy]
  rw [loadSingleStrategy_calPassband]
  simp

/-- Helper: the last action the builder adds to the root block is the
`OrOriginal` flag merge when `clearFlags` is off, and the baseline-selection
preparation step otherwise. -/
theorem loadSingleStrategy_getLast (n : ℕ) (kt cp cf rc : Bool) :
    (DefaultStrategy.loadSingleStrategy n kt cp cf rc).getLast? =
      (if cf then some (Action.baselineSelection true)
       else some (.setFlagging .orOriginal)) := by
  cases kt <;> cases cp <;> cases cf <;> cases rc <;> rfl

/-- C9: for every flags value, the tree produced by the default-strategy
builder ends with a `SetFlagging(OrOriginal)` action iff neither
`CLEAR_FLAGS` nor `GUI_FRIENDLY` is set, so preexisting flags are combined
with the flagger's output exactly when `clearFlags` is false. -/
theorem defaultStrategy_ends_with_orOriginal_iff
    (telescopeId : aoflagger.TelescopeId) (flags : ℕ) :
    ((DefaultStrategy.createStrategy telescopeId flags).children.getLast? =
        some (Action.setFlagging .orOriginal)) ↔
      (flags &&& DefaultStrategy.FLAG_CLEAR_FLAGS = 0 ∧
        flags &&& DefaultStrategy.FLAG_GUI_FRIENDLY = 0) := by
  simp only [DefaultStrategy.createStrategy, DefaultStrategy.loadStrategy, Action.children]
  rw [loadSingleStrategy_getLast]
  by_cases h1 : flags &&& DefaultStrategy.FLAG_CLEAR_FLAGS = 0 <;>
    by_cases h2 : flags &&& DefaultStrategy.FLAG_GUI_FRIENDLY = 0 <;>
      simp [h1, h2]

end rfiStrategy

/-- C1 counterexample: the facade under review assigns `TRANSIENTS` the value
0x04, not the claimed 0x010, and declares no `LARGE_BANDWIDTH` constant at
all. -/
theorem strategyFlags_claimed_values_false :
    aoflagger.StrategyFlags.TRANSIENTS ≠ 0x010 ∧
    "LARGE_BANDWIDTH" ∉ aoflagger.StrategyFlags.publicNames := by
  decide

/-- C1 (amended): the public facade declares exactly eleven `StrategyFlags`
constants, with values NONE=0x00, LOW_FREQUENCY=0x01, HIGH_FREQUENCY=0x02,
TRANSIENTS=0x04, ROBUST=0x08, FAST=0x10, OFF_AXIS_SOURCES=0x20,
UNSENSITIVE=0x40, SENSITIVE=0x80, GUI_FRIENDLY=0x100, CLEAR_FLAGS=0x200;
`LARGE_BANDWIDTH`, `SMALL_BANDWIDTH` and `AUTO_CORRELATION` are not among
them. -/
theorem strategyFlags_public_values :
    aoflagger.StrategyFlags.NONE = 0x00 ∧
    aoflagger.StrategyFlags.LOW_FREQUENCY = 0x01 ∧
    aoflagger.StrategyFlags.HIGH_FREQUENCY = 0x02 ∧
    aoflagger.StrategyFlags.TRANSIENTS = 0x04 ∧
    aoflagger.StrategyFlags.ROBUST = 0x08 ∧
    aoflagger.StrategyFlags.FAST = 0x10 ∧
    aoflagger.StrategyFlags.OFF_AXIS_SOURCES = 0x20 ∧
    aoflagger.StrategyFlags.UNSENSITIVE = 0x40 ∧
    aoflagger.StrategyFlags.SENSITIVE = 0x80 ∧
    aoflagger.StrategyFlags.GUI_FRIENDLY = 0x100 ∧
    aoflagger.StrategyFlags.CLEAR_FLAGS = 0x200 ∧
    aoflagger.StrategyFlags.publicNames.length = 11 ∧
    "LARGE_BANDWIDTH" ∉ aoflagger.StrategyFlags.publicNames ∧
    "SMALL_BANDWIDTH" ∉ aoflagger.StrategyFlags.publicNames ∧
    "AUTO_CORRELATION" ∉ aoflagger.StrategyFlags.publicNames := by
  decide

namespace rfiStrategy

/-- C5: throughout one execution of `Run`, the artifact set's original
`TimeFrequencyData` is never mutated: after any action (in particular the
root action installed by `Run`) performs, the original slot equals what it
was before, even though actions mutate the contaminated and revised slots. -/
theorem performs_preserves_original (p : Prog) (a a' : ArtifactSet)
    (h : Performs p a a') : a'.originalData = a.originalData := by
  induction h with
  | setImage a a' h => exact h
  | setFlagging m a a' h => exact h
  | sumThreshold c a a' h => exact h
  | frequencySelection a a' h => exact h
  | timeSelection a a' h => exact h
  | highPassFilter c a a' h => exact h
  | calibratePassband a a' h => exact h
  | plot k a a' h => exact h
  | baselineSelection p a a' h => exact h
  | statisticalFlag c a => rfl
  | strategy cs a a' hs ih => exact ih
  | forEachPolarisation cs a a' hs ih => exact ih
  | forEachComplexComponent b1 b2 b3 b4 b5 cs a a' hs ih => exact ih
  | iterationBlock n s cs a a' hs ih => exact ih
  | combineFlagResults cs a a' hs ih => exact ih
  | changeResolution tf ff cs a a' hs ih => exact ih
  | seqDone cs a => rfl
  | seqChild cs c a b d hm hp hs ihp ihs => exact ihs.trans ihp
  | seqAdapt cs a b d he hs ih => exact ih.trans he

/-- Witness for C5 at a concrete statistical-flag execution. -/
theorem performs_preserves_original_witness :
    (StatisticalFlagAction.performOn {} artifactExample).originalData =
      artifactExample.originalData :=
  performs_preserves_original (.act (.statisticalFlag {})) artifactExample
    (StatisticalFlagAction.performOn {} artifactExample)
    (Performs.statisticalFlag {} artifactExample)

/-- C6: `StatisticalFlagAction::Perform` executes deterministically, and its
result replaces the contaminated data's global mask by the flag dilation (by
the configured time and frequency enlargement sizes) of a copy of the
contaminated single mask, followed by the SIR operator horizontally (with the
minimum good time ratio) and then vertically (with the minimum good frequency
ratio); the contaminated images and kind and the original and revised data
are unchanged. -/
theorem statisticalFlagAction_perform_spec (cfg : StatisticalFlagConfig)
    (a : ArtifactSet) :
    Performs (.act (.statisticalFlag cfg)) a (StatisticalFlagAction.performOn cfg a) ∧
    (∀ a', Performs (.act (.statisticalFlag cfg)) a a' →
        a' = StatisticalFlagAction.performOn cfg a) ∧
    (StatisticalFlagAction.performOn cfg a).contaminatedData =
      a.contaminatedData.setGlobalMask
        (SIROperator.operateVertically
          (SIROperator.operateHorizontally
            (StatisticalFlagger.dilateFlags
              (Mask2D.createCopy a.contaminatedData.getSingleMask)
              cfg.enlargeTimeSize cfg.enlargeFrequencySize)
            cfg.minimumGoodTimeRatio)
          cfg.minimumGoodFrequencyRatio) ∧
    (StatisticalFlagAction.performOn cfg a).contaminatedData.images =
      a.contaminatedData.images ∧
    (StatisticalFlagAction.performOn cfg a).contaminatedData.kind =
      a.contaminatedData.kind ∧
    (StatisticalFlagAction.performOn cfg a).originalData = a.originalData ∧
    (StatisticalFlagAction.performOn cfg a).revisedData = a.revisedData := by
  refine ⟨Performs.statisticalFlag cfg a, ?_, rfl, rfl, rfl, rfl, rfl⟩
  intro a' h
  cases h
  rfl

/-- Witness for C6 at a concrete configuration and artifact set. -/
theorem statisticalFlagAction_perform_spec_witness :
    StatisticalFlagAction.performOn {} artifactExample =
      StatisticalFlagAction.performOn {} artifactExample ∧
    (StatisticalFlagAction.performOn {} artifactExample).contaminatedData.getSingleMask.flag
        0 0 = false :=
  ⟨(statisticalFlagAction_perform_spec {} artifactExample).2.1
      (StatisticalFlagAction.performOn {} artifactExample)
      (Performs.statisticalFlag {} artifactExample),
    rfl⟩

end rfiStrategy

namespace aoflagger

/-- C3: for every count outside {1, 2, 4, 8}, constructing an `ImageSet`
fails with a `ConfigError`, and any `Run` over the failed construction fails
with that `ConfigError` without inspecting the strategy; for counts 1, 2, 4
and 8 construction succeeds. -/
theorem imageSet_count_validation (width height : ℕ) (initialValue : ℚ) :
    (∀ count,
      ((∃ s, AOFlagger.makeImageSet width height count initialValue = .ok s) ↔
        (count = 1 ∨ count = 2 ∨ count = 4 ∨ count = 8)) ∧
      (¬(count = 1 ∨ count = 2 ∨ count = 4 ∨ count = 8) →
        AOFlagger.makeImageSet width height count initialValue =
          .error (.configError ImageSet.invalidCountMessage))) ∧
    (∀ strategy out,
      AOFlagger.RunOutcome strategy
          (AOFlagger.makeImageSet width height 3 initialValue) out →
        out = .error (.configError ImageSet.invalidCountMessage)) := by
  have hmk : ∀ count, ¬(count = 1 ∨ count = 2 ∨ count = 4 ∨ count = 8) →
      AOFlagger.makeImageSet width height count initialValue =
        .error (.configError ImageSet.invalidCountMessage) := by
    intro count hc
    push_neg at hc
    obtain ⟨h1, h2, h3, h4⟩ := hc
    simp [AOFlagger.makeImageSet, ImageSet.assertValidCount, h1, h2, h3, h4]
  refine ⟨fun count => ⟨⟨?_, ?_⟩, hmk count⟩, ?_⟩
  · rintro ⟨s, hs⟩
    by_contra hc
    rw [hmk count hc] at hs
    exact Except.noConfusion hs
  · rintro (rfl | rfl | rfl | rfl) <;> exact ⟨_, rfl⟩
  · intro strategy out h
    rw [hmk 3 (by decide)] at h
    cases h
    rfl

/-- Witness for C3 at counts 3 and 4. -/
theorem imageSet_count_validation_witness :
    AOFlagger.makeImageSet 2 2 3 0 =
      .error (.configError ImageSet.invalidCountMessage) ∧
    (∃ s, AOFlagger.makeImageSet 2 2 4 0 = .ok s) ∧
    (Except.error (.configError ImageSet.invalidCountMessage) :
        Except FlagError Mask2D) =
      .error (.configError ImageSet.invalidCountMessage) :=
  ⟨((imageSet_count_validation 2 2 0).1 3).2 (by decide),
   ((imageSet_count_validation 2 2 0).1 4).1.mpr (by decide),
   (imageSet_count_validation 2 2 0).2 (.strategy []) _
     (AOFlagger.RunOutcome.err (.configError ImageSet.invalidCountMessage))⟩

/-- C4: for every strategy and every image set with count in {1, 2, 4, 8},
`AOFlagger::Run` builds an artifact set whose original and contaminated slots
both wrap the input images in a `TimeFrequencyData` whose kind is determined
by the count (1 = amplitude of one polarization, 2 = real/imaginary of one
polarization, 4 = two polarizations, 8 = four polarizations), with every
initial mask all-false and every revised image all-zero, has the root action
perform on that artifact set, and returns the resulting contaminated data's
single mask as the flag mask. -/
theorem run_wraps_input_and_returns_contaminated_mask
    (strategy : rfiStrategy.Action) (input : ImageSet)
    (out : Except FlagError Mask2D)
    (hcount : input.imageCount = 1 ∨ input.imageCount = 2 ∨
      input.imageCount = 4 ∨ input.imageCount = 8)
    (hrun : AOFlagger.RunOutcome strategy (.ok input) out) :
    (∃ a', rfiStrategy.Performs (.act strategy)
        (AOFlagger.runInitialArtifacts input) a' ∧
      out = .ok a'.contaminatedData.getSingleMask) ∧
    (AOFlagger.runInitialArtifacts input).contaminatedData =
      (AOFlagger.runInitialArtifacts input).originalData ∧
    (AOFlagger.runInitialArtifacts input).originalData.kind =
      (if input.imageCount = 1 then .amplitudeSingle
       else if input.imageCount = 2 then .complexSingle
       else if input.imageCount = 4 then .autoDipole
       else .fullDipole) ∧
    (AOFlagger.runInitialArtifacts input).originalData.images.length =
      input.imageCount ∧
    (∀ i < input.imageCount,
      (AOFlagger.runInitialArtifacts input).originalData.images.getD i
          (Image2D.createZeroImage 0 0) = input.image i) ∧
    (∀ m ∈ (AOFlagger.runInitialArtifacts input).originalData.masks,
      ∀ x y, m.flag x y = false) ∧
    (AOFlagger.runInitialArtifacts input).originalData.masks ≠ [] ∧
    (∀ img ∈ (AOFlagger.runInitialArtifacts input).revisedData.images,
      ∀ x y, img.pixel x y = 0) ∧
    (AOFlagger.runInitialArtifacts input).revisedData.images.length =
      input.imageCount := by
  constructor
  · cases hrun with
    | ok input a' hp => exact ⟨a', hp, rfl⟩
  rcases hcount with hc | hc | hc | hc <;>
  refine ⟨?_, ?_, ?_, ?_, ?_, ?_, ?_, ?_⟩ <;>
  try simp only [AOFlagger.runInitialArtifacts, hc, TimeFrequencyData.setGlobalMask,
    TimeFrequencyData.setIndividualMasks2, TimeFrequencyData.setIndividualMasks4]
  all_goals
    first
      | rfl
      | trivial
      | (intro i hi
         interval_cases i <;> rfl)
      | (intro m hm x y
         have hm2 : m = Mask2D.createSetMaskFalse input.width input.height := by
           simpa using hm
         subst hm2
         rfl)
      | (intro img himg x y
         have h2 : img = Image2D.createZeroImage input.width input.height := by
           simpa using himg
         subst h2
         rfl)
      | simp

/-- Witness for C4 at a one-image set and an empty root strategy. -/
theorem run_wraps_input_and_returns_contaminated_mask_witness :
    ∃ a', rfiStrategy.Performs (.act (.strategy []))
        (AOFlagger.runInitialArtifacts imageSetExample) a' ∧
      (Except.ok (Mask2D.createCopy
          (AOFlagger.runInitialArtifacts imageSetExample).contaminatedData.getSingleMask) :
          Except FlagError Mask2D) =
        .ok a'.contaminatedData.getSingleMask :=
  (run_wraps_input_and_returns_contaminated_mask (.strategy []) imageSetExample _
    (by decide)
    (AOFlagger.RunOutcome.ok imageSetExample
      (AOFlagger.runInitialArtifacts imageSetExample)
      (rfiStrategy.Performs.strategy [] _ _
        (rfiStrategy.Performs.seqDone [] _)))).1

/-- C10: copy-constructing a `Strategy` copies the `StrategyData` pointer
itself — the copy holds the very same wrapper and nothing is allocated —
whereas the `ImageSet`, `FlagMask` and `QualityStatistics` copy constructors
each allocate a fresh wrapper; consequently destroying the source and the
copy of a `Strategy` releases the one shared wrapper twice. -/
theorem strategy_copy_shares_wrapper (s : Strategy) (i : ImageSetHandle)
    (f : FlagMask) (q : QualityStatistics) (st : AllocState)
    (hs : s.dataPtr < st.next) (hi : i.dataPtr < st.next)
    (hf : f.dataPtr < st.next) (hq : q.dataPtr < st.next) :
    ((Strategy.copyCtor s st).1.dataPtr = s.dataPtr ∧
      (Strategy.copyCtor s st).2 = st) ∧
    (ImageSetHandle.copyCtor i st).1.dataPtr ≠ i.dataPtr ∧
    (FlagMask.copyCtor f st).1.dataPtr ≠ f.dataPtr ∧
    (QualityStatistics.copyCtor q st).1.dataPtr ≠ q.dataPtr ∧
    (Strategy.dtor (Strategy.copyCtor s st).1
        (Strategy.dtor s (Strategy.copyCtor s st).2)).freed =
      st.freed ++ [s.dataPtr, s.dataPtr] := by
  refine ⟨⟨rfl, rfl⟩, ?_, ?_, ?_, ?_⟩
  · intro h
    simp only [ImageSetHandle.copyCtor, AllocState.alloc] at h
    omega
  · intro h
    simp only [FlagMask.copyCtor, AllocState.alloc] at h
    omega
  · intro h
    simp only [QualityStatistics.copyCtor, AllocState.alloc] at h
    omega
  · simp [Strategy.dtor, Strategy.copyCtor, AllocState.del]

/-- Witness for C10 at concrete handles. -/
theorem strategy_copy_shares_wrapper_witness :
    (Strategy.dtor (Strategy.copyCtor ⟨0⟩ ⟨1, []⟩).1
        (Strategy.dtor ⟨0⟩ (Strategy.copyCtor ⟨0⟩ ⟨1, []⟩).2)).freed =
      ([] : List ℕ) ++ [0, 0] :=
  (strategy_copy_shares_wrapper ⟨0⟩ ⟨0⟩ ⟨0⟩ ⟨0⟩ ⟨1, []⟩ (by decide) (by decide)
    (by decide) (by decide)).2.2.2.2

end aoflagger
